import Mathlib

/-!
Verification of `bulk_extractor.py` from the emails-linkedin-scraper
repository: a shallow embedding, in Lean 4, of the input reader
(`read_websites_from_file`), of the per-website orchestration loop with its
placeholder and error rows, and of the CSV appending, together with theorems
settling the spec claims.

The external extraction library (`extract_emails`: Factory, DefaultWorker,
RequestsBrowser, CsvSaver) is not part of the repository; it is modelled as
an oracle environment (`Env`) giving, for each website, the outcome of each
external call (normal return or raised exception).  A successful
`CsvSaver.save` call appends its rows to the CSV; a raising one appends
nothing.
-/

/-! ## Python string primitives used by the script -/

/-- ASCII whitespace stripped by Python `str.strip()` (the script's input
lines; full Python also strips other Unicode whitespace, which the claims do
not exercise).  -/
def isPySpace (c : Char) : Bool :=
  c = ' ' || c = '\t' || c = '\n' || c = '\r' || c = '\x0b' || c = '\x0c'

/-- Python `line.strip()`: remove leading and trailing whitespace. -/
def pyStrip (s : String) : String :=
  ⟨((s.data.dropWhile isPySpace).reverse.dropWhile isPySpace).reverse⟩

/-- Python slicing `s[0:n]` on a string: the first `n` characters. -/
def pySlice (n : Nat) (s : String) : String :=
  ⟨s.data.take n⟩

/-- Python `url.startswith(c)` for a single character `c`. -/
def pyStartsWithChar (s : String) (c : Char) : Bool :=
  match s.data with
  | [] => false
  | c0 :: _ => c0 = c

/-! ## `urllib.parse.urlparse` scheme extraction

Model of the scheme handling of CPython's `urlsplit` (3.11+), which
`urlparse` delegates to: the url is first left-stripped of WHATWG C0
controls and space, the unsafe bytes tab/CR/LF are removed everywhere, and
the part before the first `:` is the scheme iff it is non-empty, begins with
an ASCII letter, and consists of letters, digits, `+`, `-`, `.`; the scheme
is returned lowercased. -/

/-- WHATWG C0 control or space (codepoints 0x00–0x20). -/
def isC0orSpace (c : Char) : Bool :=
  c.toNat ≤ 0x20

/-- The unsafe url bytes CPython removes before parsing: tab, CR, LF. -/
def isUnsafeUrlByte (c : Char) : Bool :=
  c = '\t' || c = '\r' || c = '\n'

/-- Characters allowed in a url scheme (`scheme_chars` in CPython). -/
def isSchemeChar (c : Char) : Bool :=
  c.isAlpha || c.isDigit || c = '+' || c = '-' || c = '.'

/-- `urlparse(url).scheme`: the empty string when the url has no
(valid) scheme. -/
def urlparseScheme (url : String) : String :=
  let cs := (url.data.dropWhile isC0orSpace).filter (fun c => !isUnsafeUrlByte c)
  match cs.findIdx? (fun c => c = ':') with
  | none => ""
  | some i =>
    if 0 < i ∧ (cs.headD ' ').isAlpha ∧ (cs.take i).all isSchemeChar then
      ⟨(cs.take i).map Char.toLower⟩
    else ""

/-! ## Configuration constants of the script -/

def CRAWL_DEPTH : Nat := 10
def MAX_LINKS_PER_PAGE : Nat := 1
def DEFAULT_SCHEME : String := "https"
def CSV_HEADERS : List String := ["page", "email", "website"]

/-! ## The input reader -/

/-- The body of the `for line in f` loop of `read_websites_from_file`:
what one input line contributes to the `websites` list (`none` when the
line is skipped by a `continue`). -/
def processLine (line : String) : Option String :=
  let url := pyStrip line
  if url = "" then none
  else if pyStartsWithChar url '#' then none
  else
    let scheme := urlparseScheme url
    if scheme = "" then some (DEFAULT_SCHEME ++ "://" ++ url)
    else if scheme = "http" || scheme = "https" then some url
    else none

/-- All lines of the file, processed in order. -/
def processLines (lines : List String) : List String :=
  lines.filterMap processLine

/-- `read_websites_from_file`: the input file is `none` when it does not
exist (the script then does `sys.exit(1)`, modelled as `Except.error 1`)
and `some lines` otherwise, `lines` being the file's lines as iterated by
`for line in f`. -/
def read_websites_from_file (input : Option (List String)) :
    Except Nat (List String) :=
  match input with
  | none => Except.error 1
  | some lines => Except.ok (processLines lines)

example : processLines ["example.com"] = ["https://example.com"] := by decide

example : processLines ["  # comment", "", "ftp://a", "http://b"] = ["http://b"] := by
  decide

example : urlparseScheme "HTTP://x" = "http" := by decide
example : urlparseScheme "example.com" = "" := by decide
example : urlparseScheme "localhost:8080" = "localhost" := by decide

/-! ## Data model of the orchestration loop -/

/-- A CSV result record with the three fields named by `CSV_HEADERS`.
The records returned by `worker.get_data()` as well as the placeholder and
error rows all carry these fields. -/
structure Record where
  page : String
  email : String
  website : String
deriving DecidableEq

/-- A Python exception, reduced to what the script observes of it:
`type(e).__name__` and `str(e)`. -/
structure Exc where
  tyName : String
  msg : String
deriving DecidableEq

/-- Outcome of a call into the external library: a normal return of a list
of records, or a raised exception. -/
inductive ExtOutcome where
  | ok (records : List Record)
  | exc (e : Exc)
deriving DecidableEq

/-- Oracle for the external `extract_emails` library, per website: whether
the `Factory` constructor raises, whether the `DefaultWorker` constructor
raises, what `worker.get_data()` does (`browser` is the argument the factory
was given), whether `data_saver.save` raises on the data/placeholder rows,
and whether it raises on the error-placeholder rows.  A raising `save`
appends nothing. -/
structure Env (β : Type) where
  factoryExc : String → Option Exc
  workerExc : String → Option Exc
  get_data : β → String → ExtOutcome
  saveDataExc : String → Option Exc
  saveErrExc : String → Option Exc

/-- Observable events of one run: external constructor and method calls, and
`data_saver.save` calls together with their outcome. -/
inductive Event (β : Type) where
  | factoryCtor (website_url : String) (browser : β)
      (depth : Nat) (max_links_from_page : Nat)
  | workerCtor (website : String)
  | getDataCall (website : String)
  | saveCall (rows : List Record) (result : Option Exc)
deriving DecidableEq

/-- The placeholder row saved when the worker returns no data
(`placeholder_data` in the script). -/
def placeholder_data (website : String) : List Record :=
  [{ page := website, email := "", website := website }]

/-- The `email` field of an error row: `f'ERROR: {type(e).__name__}: {str(e)}'[0:200]`. -/
def errorEmail (e : Exc) : String :=
  pySlice 200 ("ERROR: " ++ e.tyName ++ ": " ++ e.msg)

/-- The error row saved from the `except` branch
(`error_placeholder` in the script). -/
def error_placeholder (e : Exc) (website : String) : List Record :=
  [{ page := "ERROR_DURING_PROCESSING", email := errorEmail e, website := website }]

/-- The `try:` part of the loop body for one website: the events it
produces, and `some e` when it raises exception `e` (caught by the
`except`).  Python's truthiness test `if raw_data:` selects the direct-save
branch exactly when the returned list is non-empty. -/
def tryBody {β : Type} (env : Env β) (b : β) (website : String) :
    List (Event β) × Option Exc :=
  let fEv := Event.factoryCtor website b CRAWL_DEPTH MAX_LINKS_PER_PAGE
  match env.factoryExc website with
  | some e => ([fEv], some e)
  | none =>
    match env.workerExc website with
    | some e => ([fEv, Event.workerCtor website], some e)
    | none =>
      let evs := [fEv, Event.workerCtor website, Event.getDataCall website]
      match env.get_data b website with
      | ExtOutcome.exc e => (evs, some e)
      | ExtOutcome.ok records =>
        let rows := if records.isEmpty then placeholder_data website else records
        match env.saveDataExc website with
        | none => (evs ++ [Event.saveCall rows none], none)
        | some e => (evs ++ [Event.saveCall rows (some e)], some e)

/-- The `except Exception as e:` branch: try to save the error row; a
failure of that save is itself caught and nothing is written. -/
def handleExc {β : Type} (env : Env β) (website : String) (e : Exc) :
    List (Event β) :=
  let rows := error_placeholder e website
  match env.saveErrExc website with
  | none => [Event.saveCall rows none]
  | some se => [Event.saveCall rows (some se)]

/-- The whole loop body for one website: its event trace.  It never raises
(every exception path ends in the `except` branch, whose own save failure is
also caught). -/
def processWebsite {β : Type} (env : Env β) (b : β) (website : String) :
    List (Event β) :=
  match tryBody env b website with
  | (evs, none) => evs
  | (evs, some e) => evs ++ handleExc env website e

/-- The rows appended to the CSV by the successful `save` calls of a trace,
in order. -/
def savedRows {β : Type} (evs : List (Event β)) : List Record :=
  (evs.filterMap fun ev =>
    match ev with
    | Event.saveCall rows none => some rows
    | _ => none).join

/-- The event trace of the whole `for i, website in enumerate(...)` loop. -/
def runTrace {β : Type} (env : Env β) (b : β) (websites : List String) :
    List (Event β) :=
  websites.bind (processWebsite env b)

/-- The CSV contents after the loop, starting from contents `csv0`
(`save_mode="a"`: every save appends). -/
def runCsv {β : Type} (env : Env β) (b : β) (websites : List String)
    (csv0 : List Record) : List Record :=
  websites.foldl (fun csv w => csv ++ savedRows (processWebsite env b w)) csv0

/-- How `CsvSaver` renders one record under header name `h`: it looks up the
field named by the header. -/
def renderField (r : Record) (h : String) : String :=
  if h = "page" then r.page
  else if h = "email" then r.email
  else if h = "website" then r.website
  else ""

/-- One CSV row: the record's fields in the order fixed by `CSV_HEADERS`. -/
def renderRow (r : Record) : List String :=
  CSV_HEADERS.map (renderField r)

/-! ## The whole script -/

/-- Observable outcome of one run of the script. -/
structure RunOutcome (β : Type) where
  exitCode : Nat
  browserConstructed : Bool
  saverConstructed : Bool
  trace : List (Event β)
  csv : List Record
deriving DecidableEq

/-- The script: read the websites (exiting 1 when the input file is
missing), exit 0 before constructing the browser or the saver when no valid
website was found, and otherwise run the loop.  `csv0` is the output file's
contents before the run. -/
def script {β : Type} (env : Env β) (b : β) (input : Option (List String))
    (csv0 : List Record) : RunOutcome β :=
  match read_websites_from_file input with
  | Except.error c =>
      { exitCode := c, browserConstructed := false, saverConstructed := false,
        trace := [], csv := csv0 }
  | Except.ok websites =>
      if websites.isEmpty then
        { exitCode := 0, browserConstructed := false, saverConstructed := false,
          trace := [], csv := csv0 }
      else
        { exitCode := 0, browserConstructed := true, saverConstructed := true,
          trace := runTrace env b websites, csv := runCsv env b websites csv0 }

/-! ## Lemmas about the input reader -/

lemma processLine_skipped (line : String)
    (h : pyStrip line = "" ∨ pyStartsWithChar (pyStrip line) '#' = true) :
    processLine line = none := by
  rcases h with h | h <;> simp [processLine, h]

lemma processLine_default (line : String) (h1 : pyStrip line ≠ "")
    (h2 : pyStartsWithChar (pyStrip line) '#' = false)
    (h3 : urlparseScheme (pyStrip line) = "") :
    processLine line = some (DEFAULT_SCHEME ++ "://" ++ pyStrip line) := by
  simp [processLine, h1, h2, h3]

lemma processLine_kept (line : String) (h1 : pyStrip line ≠ "")
    (h2 : pyStartsWithChar (pyStrip line) '#' = false)
    (h3 : urlparseScheme (pyStrip line) = "http" ∨
      urlparseScheme (pyStrip line) = "https") :
    processLine line = some (pyStrip line) := by
  rcases h3 with h3 | h3 <;> simp [processLine, h1, h2, h3]

lemma processLine_unsupported (line : String) (h1 : pyStrip line ≠ "")
    (h2 : pyStartsWithChar (pyStrip line) '#' = false)
    (h3 : urlparseScheme (pyStrip line) ≠ "")
    (h4 : urlparseScheme (pyStrip line) ≠ "http")
    (h5 : urlparseScheme (pyStrip line) ≠ "https") :
    processLine line = none := by
  simp [processLine, h1, h2, h3, h4, h5]

lemma processLines_append (xs ys : List String) :
    processLines (xs ++ ys) = processLines xs ++ processLines ys := by
  simp [processLines]

/-- Modelled after the spec's words, for the amended C1: keep a line iff its
stripped text is non-blank, does not start with `#`, and its urlparse scheme
is either missing (the url is then prefixed with `https://`) or `http` or
`https` (the url is then kept unchanged). -/
def specKeptLine (line : String) : Option String :=
  let url := pyStrip line
  if url ≠ "" ∧ pyStartsWithChar url '#' = false ∧
      (urlparseScheme url = "" ∨ urlparseScheme url = "http" ∨
        urlparseScheme url = "https") then
    some (if urlparseScheme url = "" then DEFAULT_SCHEME ++ "://" ++ url else url)
  else none

lemma processLine_eq_specKeptLine (line : String) :
    processLine line = specKeptLine line := by
  by_cases h1 : pyStrip line = ""
  · simp [processLine, specKeptLine, h1]
  · by_cases h2 : pyStartsWithChar (pyStrip line) '#' = true
    · simp [processLine, specKeptLine, h1, h2]
    · rw [Bool.not_eq_true] at h2
      by_cases h3 : urlparseScheme (pyStrip line) = ""
      · simp [processLine, specKeptLine, h1, h2, h3]
      · by_cases h4 : urlparseScheme (pyStrip line) = "http"
        · simp [processLine, specKeptLine, h1, h2, h3, h4]
        · by_cases h5 : urlparseScheme (pyStrip line) = "https"
          · simp [processLine, specKeptLine, h1, h2, h3, h4, h5]
          · simp [processLine, specKeptLine, h1, h2, h3, h4, h5]

/-! ## Claims C1–C3 -/

/-- C1, counterexample: the line `ftp://a` is non-blank and does not start
with `#`, yet `read_websites_from_file` does not return it (its scheme is
unsupported), so the returned list is not "exactly the non-blank lines whose
stripped text does not start with `#`". -/
theorem C1_counterexample :
    pyStrip "ftp://a" ≠ "" ∧
    pyStartsWithChar (pyStrip "ftp://a") '#' = false ∧
    read_websites_from_file (some ["ftp://a"]) = Except.ok [] := by
  refine ⟨by decide, by decide, ?_⟩
  show Except.ok (processLines ["ftp://a"]) = Except.ok []
  norm_num
  decide

/-- C1 (amended): for every input file that exists,
`read_websites_from_file` returns exactly the non-blank lines whose stripped
text does not start with `#` and whose urlparse scheme is empty, `http` or
`https`, in file order, empty-scheme urls being prefixed with `https://` and
the others kept unchanged; blank lines, `#` lines and unsupported-scheme
lines contribute nothing. -/
theorem C1_reader_returns_kept_lines (lines : List String) :
    read_websites_from_file (some lines) =
      Except.ok (lines.filterMap specKeptLine) := by
  show Except.ok (processLines lines) = _
  have h : processLine = specKeptLine := funext processLine_eq_specKeptLine
  simp [processLines, h]

/-- C2: a line whose stripped url has no scheme contributes, exactly once
and in position, that url prefixed with `https://`. -/
theorem C2_missing_scheme_defaulted (pre post : List String) (line : String)
    (h1 : pyStrip line ≠ "")
    (h2 : pyStartsWithChar (pyStrip line) '#' = false)
    (h3 : urlparseScheme (pyStrip line) = "") :
    read_websites_from_file (some (pre ++ line :: post)) =
      Except.ok (processLines pre ++
        (DEFAULT_SCHEME ++ "://" ++ pyStrip line) :: processLines post) := by
  show Except.ok (processLines (pre ++ line :: post)) = _
  rw [processLines_append]
  show Except.ok (processLines pre ++ List.filterMap processLine (line :: post)) = _
  rw [List.filterMap_cons, processLine_default line h1 h2 h3]
  rfl

theorem C2_missing_scheme_defaulted_witness :
    read_websites_from_file (some (["# leads"] ++ " example.com " :: ["http://b"])) =
      Except.ok (processLines ["# leads"] ++
        (DEFAULT_SCHEME ++ "://" ++ pyStrip " example.com ") ::
          processLines ["http://b"]) :=
  C2_missing_scheme_defaulted ["# leads"] ["http://b"] " example.com "
    (by decide) (by decide) (by decide)

/-- C3: a line whose stripped url has a non-empty scheme other than `http`
or `https` contributes nothing; one whose scheme is `http` or `https` is
kept unchanged, exactly once and in position. -/
theorem C3_scheme_filter (pre post : List String) (line : String)
    (h1 : pyStrip line ≠ "")
    (h2 : pyStartsWithChar (pyStrip line) '#' = false) :
    (urlparseScheme (pyStrip line) ≠ "" →
      urlparseScheme (pyStrip line) ≠ "http" →
      urlparseScheme (pyStrip line) ≠ "https" →
      read_websites_from_file (some (pre ++ line :: post)) =
        Except.ok (processLines pre ++ processLines post)) ∧
    (urlparseScheme (pyStrip line) = "http" ∨
        urlparseScheme (pyStrip line) = "https" →
      read_websites_from_file (some (pre ++ line :: post)) =
        Except.ok (processLines pre ++ pyStrip line :: processLines post)) := by
  constructor
  · intro h3 h4 h5
    show Except.ok (processLines (pre ++ line :: post)) = _
    rw [processLines_append]
    show Except.ok (processLines pre ++ List.filterMap processLine (line :: post)) = _
    rw [List.filterMap_cons, processLine_unsupported line h1 h2 h3 h4 h5]
    rfl
  · intro h3
    show Except.ok (processLines (pre ++ line :: post)) = _
    rw [processLines_append]
    show Except.ok (processLines pre ++ List.filterMap processLine (line :: post)) = _
    rw [List.filterMap_cons, processLine_kept line h1 h2 h3]
    rfl

theorem C3_scheme_filter_witness :
    (read_websites_from_file (some (["a.com"] ++ "ftp://x" :: ["http://b"])) =
      Except.ok (processLines ["a.com"] ++ processLines ["http://b"])) ∧
    (read_websites_from_file (some (["a.com"] ++ "HTTPS://y" :: ["http://b"])) =
      Except.ok (processLines ["a.com"] ++
        pyStrip "HTTPS://y" :: processLines ["http://b"])) :=
  ⟨(C3_scheme_filter ["a.com"] ["http://b"] "ftp://x" (by decide) (by decide)).1
      (by decide) (by decide) (by decide),
   (C3_scheme_filter ["a.com"] ["http://b"] "HTTPS://y" (by decide) (by decide)).2
      (Or.inr (by decide))⟩

/-! ## Lemmas about the orchestration loop -/

/-- Is an event a `Factory` construction? -/
def isFactoryEvent {β : Type} : Event β → Bool
  | Event.factoryCtor _ _ _ _ => true
  | _ => false

/-- Is an event a call into the extraction library (constructor or
`get_data`), as opposed to a `save`? -/
def isExtractionEvent {β : Type} : Event β → Bool
  | Event.saveCall _ _ => false
  | _ => true

lemma savedRows_append {β : Type} (evs1 evs2 : List (Event β)) :
    savedRows (evs1 ++ evs2) = savedRows evs1 ++ savedRows evs2 := by
  simp [savedRows]

lemma runTrace_cons {β : Type} (env : Env β) (b : β) (w : String)
    (ws : List String) :
    runTrace env b (w :: ws) = processWebsite env b w ++ runTrace env b ws := by
  simp [runTrace]

lemma runTrace_append {β : Type} (env : Env β) (b : β) (ws1 ws2 : List String) :
    runTrace env b (ws1 ++ ws2) = runTrace env b ws1 ++ runTrace env b ws2 := by
  simp [runTrace]

lemma runTrace_filter {β : Type} (env : Env β) (b : β) (ws : List String)
    (p : Event β → Bool) :
    (runTrace env b ws).filter p =
      ws.bind (fun w => (processWebsite env b w).filter p) := by
  induction ws with
  | nil => rfl
  | cons w ws ih => rw [runTrace_cons, List.filter_append, ih]; simp

lemma runCsv_eq {β : Type} (env : Env β) (b : β) (ws : List String)
    (csv0 : List Record) :
    runCsv env b ws csv0 = csv0 ++ savedRows (runTrace env b ws) := by
  induction ws generalizing csv0 with
  | nil => simp [runCsv, runTrace, savedRows]
  | cons w ws ih =>
    show runCsv env b ws (csv0 ++ savedRows (processWebsite env b w)) = _
    rw [ih, runTrace_cons, savedRows_append, List.append_assoc]

lemma processWebsite_filter_factory {β : Type} (env : Env β) (b : β)
    (w : String) :
    (processWebsite env b w).filter isFactoryEvent =
      [Event.factoryCtor w b CRAWL_DEPTH MAX_LINKS_PER_PAGE] := by
  unfold processWebsite tryBody handleExc
  rcases env.factoryExc w with _ | e1 <;>
    rcases env.workerExc w with _ | e2 <;>
    rcases env.get_data b w with records | e3 <;>
    rcases env.saveDataExc w with _ | e4 <;>
    rcases env.saveErrExc w with _ | e5 <;>
    simp [isFactoryEvent]

lemma processWebsite_filter_extraction {β : Type} (env : Env β) (b : β)
    (w : String) (hf : env.factoryExc w = none) (hw : env.workerExc w = none) :
    (processWebsite env b w).filter isExtractionEvent =
      [Event.factoryCtor w b CRAWL_DEPTH MAX_LINKS_PER_PAGE,
        Event.workerCtor w, Event.getDataCall w] := by
  unfold processWebsite tryBody handleExc
  rw [hf, hw]
  rcases env.get_data b w with records | e3 <;>
    rcases env.saveDataExc w with _ | e4 <;>
    rcases env.saveErrExc w with _ | e5 <;>
    simp [isExtractionEvent]

lemma factoryCtor_mem_processWebsite {β : Type} (env : Env β) (b : β)
    (w : String) :
    Event.factoryCtor w b CRAWL_DEPTH MAX_LINKS_PER_PAGE ∈
      processWebsite env b w := by
  unfold processWebsite tryBody handleExc
  rcases env.factoryExc w with _ | e1 <;>
    rcases env.workerExc w with _ | e2 <;>
    rcases env.get_data b w with records | e3 <;>
    rcases env.saveDataExc w with _ | e4 <;>
    rcases env.saveErrExc w with _ | e5 <;>
    simp

lemma savedRows_processWebsite_ok {β : Type} (env : Env β) (b : β)
    (w : String) (records : List Record)
    (hf : env.factoryExc w = none) (hw : env.workerExc w = none)
    (hg : env.get_data b w = ExtOutcome.ok records)
    (hs : env.saveDataExc w = none) :
    savedRows (processWebsite env b w) =
      if records.isEmpty then placeholder_data w else records := by
  unfold processWebsite tryBody
  rw [hf, hw, hg, hs]
  simp [savedRows]

lemma tryBody_exc_savedRows {β : Type} (env : Env β) (b : β) (w : String)
    (e : Exc) (h : (tryBody env b w).2 = some e) :
    savedRows (tryBody env b w).1 = [] := by
  unfold tryBody at h ⊢
  rcases hf : env.factoryExc w with _ | e1 <;>
    rcases hw : env.workerExc w with _ | e2 <;>
    rcases hg : env.get_data b w with records | e3 <;>
    rcases hs : env.saveDataExc w with _ | e4 <;>
    simp_all [savedRows]

lemma processWebsite_exc {β : Type} (env : Env β) (b : β) (w : String)
    (e : Exc) (h : (tryBody env b w).2 = some e) :
    processWebsite env b w = (tryBody env b w).1 ++ handleExc env w e := by
  unfold processWebsite
  rcases ht : tryBody env b w with ⟨evs, o⟩
  rw [ht] at h
  simp only at h
  subst h
  rfl

lemma savedRows_handleExc_ok {β : Type} (env : Env β) (w : String) (e : Exc)
    (h2 : env.saveErrExc w = none) :
    savedRows (handleExc env w e) = error_placeholder e w := by
  unfold handleExc
  rw [h2]
  simp [savedRows]

lemma savedRows_handleExc_fail {β : Type} (env : Env β) (w : String)
    (e se : Exc) (h2 : env.saveErrExc w = some se) :
    savedRows (handleExc env w e) = [] := by
  unfold handleExc
  rw [h2]
  simp [savedRows]

lemma savedRows_processWebsite_exc {β : Type} (env : Env β) (b : β)
    (w : String) (e : Exc) (h1 : (tryBody env b w).2 = some e)
    (h2 : env.saveErrExc w = none) :
    savedRows (processWebsite env b w) = error_placeholder e w := by
  rw [processWebsite_exc env b w e h1, savedRows_append,
    tryBody_exc_savedRows env b w e h1, savedRows_handleExc_ok env w e h2]
  rfl

/-! ## Sample environments used to instantiate the loop theorems -/

/-- A run where every external call succeeds and the worker finds nothing. -/
def envOkEmpty : Env Unit :=
  { factoryExc := fun _ => none, workerExc := fun _ => none,
    get_data := fun _ _ => ExtOutcome.ok [],
    saveDataExc := fun _ => none, saveErrExc := fun _ => none }

/-- A record a run of the worker could return. -/
def sampleRec : Record :=
  { page := "https://a/contact", email := "x@a", website := "https://a" }

/-- A run where every external call succeeds and the worker finds
`sampleRec`. -/
def envOkData : Env Unit :=
  { factoryExc := fun _ => none, workerExc := fun _ => none,
    get_data := fun _ _ => ExtOutcome.ok [sampleRec],
    saveDataExc := fun _ => none, saveErrExc := fun _ => none }

/-- The exception raised in the sample failing runs. -/
def sampleExc : Exc :=
  { tyName := "ConnectionError", msg := "connection refused" }

/-- A run where `get_data` raises and the error row is saved fine. -/
def envRaise : Env Unit :=
  { factoryExc := fun _ => none, workerExc := fun _ => none,
    get_data := fun _ _ => ExtOutcome.exc sampleExc,
    saveDataExc := fun _ => none, saveErrExc := fun _ => none }

/-- A run where `get_data` raises and saving the error row raises too. -/
def envRaiseSaveFail : Env Unit :=
  { factoryExc := fun _ => none, workerExc := fun _ => none,
    get_data := fun _ _ => ExtOutcome.exc sampleExc,
    saveDataExc := fun _ => none,
    saveErrExc := fun _ => some { tyName := "OSError", msg := "disk full" } }

/-! ## Claims C4–C7 -/

/-- C4: the orchestrator processes every url of the returned list in list
order; each url gets exactly one `Factory` construction with the fixed
parameters depth `10` and `max_links_from_page = 1`, the one browser
instance `b`, and that url; and (when the two external constructors do not
raise) each url gets exactly one `DefaultWorker` construction followed by
exactly one `get_data` call. -/
theorem C4_orchestrator_fixed_params {β : Type} (env : Env β) (b : β)
    (websites : List String)
    (h : ∀ w, env.factoryExc w = none ∧ env.workerExc w = none) :
    (runTrace env b websites).filter isFactoryEvent =
      websites.map (fun w => Event.factoryCtor w b 10 1) ∧
    (runTrace env b websites).filter isExtractionEvent =
      websites.bind (fun w =>
        [Event.factoryCtor w b 10 1, Event.workerCtor w,
          Event.getDataCall w]) := by
  constructor
  · induction websites with
    | nil => rfl
    | cons w ws ih =>
      rw [runTrace_cons, List.filter_append, processWebsite_filter_factory, ih]
      simp [CRAWL_DEPTH, MAX_LINKS_PER_PAGE]
  · induction websites with
    | nil => rfl
    | cons w ws ih =>
      rw [runTrace_cons, List.filter_append,
        processWebsite_filter_extraction env b w (h w).1 (h w).2, ih]
      simp [CRAWL_DEPTH, MAX_LINKS_PER_PAGE]

theorem C4_orchestrator_fixed_params_witness :
    (runTrace envOkEmpty () ["https://a", "https://b"]).filter isFactoryEvent =
      ["https://a", "https://b"].map
        (fun w => Event.factoryCtor w () 10 1) ∧
    (runTrace envOkEmpty () ["https://a", "https://b"]).filter
        isExtractionEvent =
      ["https://a", "https://b"].bind (fun w =>
        [Event.factoryCtor w () 10 1, Event.workerCtor w,
          Event.getDataCall w]) :=
  C4_orchestrator_fixed_params envOkEmpty () ["https://a", "https://b"]
    (fun _ => ⟨rfl, rfl⟩)

/-- C5: when `get_data` succeeds and the save succeeds, an empty (falsy)
result leads to exactly one placeholder row `{page := w, email := "",
website := w}` being appended, and a non-empty result leads to exactly the
returned records being appended (no placeholder). -/
theorem C5_placeholder_on_empty {β : Type} (env : Env β) (b : β)
    (w : String) (records : List Record)
    (hf : env.factoryExc w = none) (hw : env.workerExc w = none)
    (hg : env.get_data b w = ExtOutcome.ok records)
    (hs : env.saveDataExc w = none) :
    savedRows (processWebsite env b w) =
      if records.isEmpty then
        [{ page := w, email := "", website := w }]
      else records := by
  rw [savedRows_processWebsite_ok env b w records hf hw hg hs]
  rfl

theorem C5_placeholder_on_empty_witness :
    (savedRows (processWebsite envOkEmpty () "https://a") =
      if ([] : List Record).isEmpty then
        [{ page := "https://a", email := "", website := "https://a" }]
      else []) ∧
    (savedRows (processWebsite envOkData () "https://a") =
      if [sampleRec].isEmpty then
        [{ page := "https://a", email := "", website := "https://a" }]
      else [sampleRec]) :=
  ⟨C5_placeholder_on_empty envOkEmpty () "https://a" [] rfl rfl rfl rfl,
   C5_placeholder_on_empty envOkData () "https://a" [sampleRec] rfl rfl rfl rfl⟩

/-- C6: when the body raises exception `e` (from the factory constructor,
the worker constructor, `get_data` or a save) and saving the error row
succeeds, exactly the one row `{page := "ERROR_DURING_PROCESSING",
email := errorEmail e, website := w}` is appended for that website, and the
loop goes on to process every remaining website. -/
theorem C6_error_row_on_exception {β : Type} (env : Env β) (b : β)
    (w : String) (e : Exc) (pre post : List String)
    (h1 : (tryBody env b w).2 = some e) (h2 : env.saveErrExc w = none) :
    savedRows (processWebsite env b w) =
      [{ page := "ERROR_DURING_PROCESSING", email := errorEmail e,
         website := w }] ∧
    runTrace env b (pre ++ w :: post) =
      runTrace env b pre ++ processWebsite env b w ++ runTrace env b post := by
  constructor
  · rw [savedRows_processWebsite_exc env b w e h1 h2]
    rfl
  · rw [runTrace_append, runTrace_cons, List.append_assoc]

theorem C6_error_row_on_exception_witness :
    savedRows (processWebsite envRaise () "https://a") =
      [{ page := "ERROR_DURING_PROCESSING", email := errorEmail sampleExc,
         website := "https://a" }] ∧
    runTrace envRaise () (["https://x"] ++ "https://a" :: ["https://y"]) =
      runTrace envRaise () ["https://x"] ++
        processWebsite envRaise () "https://a" ++
        runTrace envRaise () ["https://y"] :=
  C6_error_row_on_exception envRaise () "https://a" sampleExc
    ["https://x"] ["https://y"] (by decide) rfl

/-- C7: the CSV is append-only: the contents present before the run (and
inductively everything written earlier) form an unchanged prefix of the
final contents, the loop's rows being appended after them; and every record
is rendered in the fixed column order `page`, `email`, `website` of
`CSV_HEADERS`. -/
theorem C7_append_only_fixed_columns {β : Type} (env : Env β) (b : β)
    (websites : List String) (csv0 : List Record) :
    runCsv env b websites csv0 = csv0 ++ savedRows (runTrace env b websites) ∧
    ∀ r : Record, renderRow r = [r.page, r.email, r.website] := by
  constructor
  · exact runCsv_eq env b websites csv0
  · intro r
    simp [renderRow, renderField, CSV_HEADERS]

/-! ## Claims C8–C10 -/

/-- C8: a missing input file makes the script exit with status 1 before the
browser and the CSV saver are constructed and with the output file
untouched; an existing file yielding no valid website makes it exit with
status 0, again before the browser and the saver are constructed, with no
call into the extraction library and with the output file untouched. -/
theorem C8_early_exits {β : Type} (env : Env β) (b : β)
    (csv0 : List Record) (lines : List String) :
    script env b none csv0 =
      { exitCode := 1, browserConstructed := false, saverConstructed := false,
        trace := [], csv := csv0 } ∧
    (processLines lines = [] →
      script env b (some lines) csv0 =
        { exitCode := 0, browserConstructed := false,
          saverConstructed := false, trace := [], csv := csv0 }) := by
  constructor
  · rfl
  · intro h
    simp [script, read_websites_from_file, h]

theorem C8_early_exits_witness :
    script envOkEmpty () none [sampleRec] =
      { exitCode := 1, browserConstructed := false, saverConstructed := false,
        trace := [], csv := [sampleRec] } ∧
    script envOkEmpty () (some ["# comment", "  ", "ftp://a"]) [sampleRec] =
      { exitCode := 0, browserConstructed := false, saverConstructed := false,
        trace := [], csv := [sampleRec] } :=
  ⟨(C8_early_exits envOkEmpty () [sampleRec] ["# comment", "  ", "ftp://a"]).1,
   (C8_early_exits envOkEmpty () [sampleRec] ["# comment", "  ", "ftp://a"]).2
     (by decide)⟩

/-- C9: in every error row written after an exception `e`, the `email`
field is the string `ERROR: `, then the exception type name, then `: `,
then the exception message, the whole truncated to its first 200
characters; in particular its length never exceeds 200. -/
theorem C9_error_email_truncated {β : Type} (env : Env β) (b : β)
    (w : String) (e : Exc)
    (h1 : (tryBody env b w).2 = some e) (h2 : env.saveErrExc w = none) :
    ∀ r ∈ savedRows (processWebsite env b w),
      r.email = pySlice 200 ("ERROR: " ++ e.tyName ++ ": " ++ e.msg) ∧
      r.email.length ≤ 200 := by
  intro r hr
  rw [savedRows_processWebsite_exc env b w e h1 h2] at hr
  simp only [error_placeholder, List.mem_singleton] at hr
  subst hr
  refine ⟨rfl, ?_⟩
  show (("ERROR: " ++ e.tyName ++ ": " ++ e.msg).data.take 200).length ≤ 200
  exact List.length_take_le 200 _

theorem C9_error_email_truncated_witness :
    ({ page := "ERROR_DURING_PROCESSING", email := errorEmail sampleExc,
       website := "https://a" } : Record).email =
      pySlice 200 ("ERROR: " ++ sampleExc.tyName ++ ": " ++ sampleExc.msg) ∧
    ({ page := "ERROR_DURING_PROCESSING", email := errorEmail sampleExc,
       website := "https://a" } : Record).email.length ≤ 200 :=
  C9_error_email_truncated envRaise () "https://a" sampleExc (by decide) rfl
    { page := "ERROR_DURING_PROCESSING", email := errorEmail sampleExc,
      website := "https://a" }
    (by decide)

/-- C10: no exception propagates out of the loop body: when the body raises
and saving the error row itself raises, that second failure is caught and no
row at all is written for that website; and whatever the environment does,
every website of the list is processed (its `Factory` construction appears
in the run's trace), so the run reaches the end of the list. -/
theorem C10_loop_never_propagates {β : Type} (env : Env β) (b : β)
    (w : String) (e se : Exc) (ws : List String)
    (h1 : (tryBody env b w).2 = some e)
    (h2 : env.saveErrExc w = some se) :
    savedRows (processWebsite env b w) = [] ∧
    ∀ w2 ∈ ws, Event.factoryCtor w2 b CRAWL_DEPTH MAX_LINKS_PER_PAGE ∈
      runTrace env b ws := by
  constructor
  · rw [processWebsite_exc env b w e h1, savedRows_append,
      tryBody_exc_savedRows env b w e h1,
      savedRows_handleExc_fail env w e se h2]
    rfl
  · intro w2 hw2
    simp only [runTrace, List.mem_bind]
    exact ⟨w2, hw2, factoryCtor_mem_processWebsite env b w2⟩

theorem C10_loop_never_propagates_witness :
    savedRows (processWebsite envRaiseSaveFail () "https://a") = [] ∧
    Event.factoryCtor "https://a" () CRAWL_DEPTH MAX_LINKS_PER_PAGE ∈
      runTrace envRaiseSaveFail () ["https://a", "https://b"] :=
  ⟨(C10_loop_never_propagates envRaiseSaveFail () "https://a" sampleExc
      { tyName := "OSError", msg := "disk full" } ["https://a", "https://b"]
      (by decide) rfl).1,
   (C10_loop_never_propagates envRaiseSaveFail () "https://a" sampleExc
      { tyName := "OSError", msg := "disk full" } ["https://a", "https://b"]
      (by decide) rfl).2 "https://a" (by decide)⟩
